import Mathlib

set_option maxRecDepth 100000

/-!
# Formal model of the statin recommendation service

A shallow embedding of the repository `routerhan/statin-api`:

* `src/statin_logic.py` — the pure recommendation engine
  (`get_statin_recommendation` and its two assessment chains);
* `src/app.py` — the `POST /evaluate` endpoint pipeline (payload validation,
  identity resolution, persistence, error handling), the `Pagination` helper
  and its `iter_pages` generator, and the login-flash session mechanics;
* `src/models.py` — the `Evaluation` row shape, as far as the endpoint
  writes it.

Numbers are modelled as rationals (`ℚ`), strings as Lean `String`s, and the
database / session as explicit state threaded through the endpoint function.
-/

/-! ## Recommendation engine (src/statin_logic.py) -/

def ULN_CK : ℚ := 200

def ULN_ALT : ℚ := 40

def BILIRUBIN_THRESHOLD : ℚ := 2

/-- The whitespace characters removed by Python `str.strip()` (the ASCII
subset; the engine's output only ever contains `'\n'` at its edges). -/
def isPySpace (c : Char) : Bool :=
  c = ' ' || c = '\x09' || c = '\x0a' || c = '\x0b' || c = '\x0c' || c = '\x0d'

/-- Python `str.strip()`: drop leading and trailing whitespace. -/
def pyStrip (s : String) : String :=
  ⟨((s.data.dropWhile isPySpace).reverse.dropWhile isPySpace).reverse⟩

/-- The CK / myopathy if-chain of `get_statin_recommendation`
(src/statin_logic.py lines 21-35), including the redundant disjunct
`muscle_symptoms and ck_value > 10 * ULN_CK` exactly as written.
The final `else ""` is the (unreachable) case in which no branch of the
Python `if`/`elif` chain fires. -/
def ckAssessment (ck_value : ℚ) (muscle_symptoms : Bool) : String :=
  if ck_value > 10 * ULN_CK ∨ (muscle_symptoms = true ∧ ck_value > 10 * ULN_CK) then
    "CK: Withdraw statin, hydrate, and monitor renal function.\n\n"
  else if 3 * ULN_CK < ck_value ∧ ck_value ≤ 10 * ULN_CK then
    "CK: Withdraw statin. Consider nonstatin-related causes and modify risk factors.\n\n"
  else if ck_value ≤ 3 * ULN_CK then
    if muscle_symptoms then
      "CK: Withdraw statin. Consider nonstatin-related causes and modify risk factors.\n- If symptoms resolve and CK returns to normal: reinitiate statin at a reduced dose or switch to an alternative statin.\n- If CK remains elevated (>3x ULN) or symptoms persist: consult a specialist or consider muscle biopsy.\n\n"
    else
      "CK: Continue statin. Follow up CK in 2–4 weeks. Consider nonstatin-related causes and modify risk factors.\n\n"
  else ""

/-- The liver-function if-chain of `get_statin_recommendation`
(src/statin_logic.py lines 38-48). -/
def liverAssessment (transaminase bilirubin : ℚ) : String :=
  if transaminase ≤ ULN_ALT then
    "Liver: Start statin. Follow-up liver function test in 12 weeks.\n"
  else if ULN_ALT < transaminase ∧ transaminase ≤ 3 * ULN_ALT then
    if bilirubin ≤ BILIRUBIN_THRESHOLD then
      "Liver: Consider starting statin. Reassess liver function and bilirubin in 2–4 weeks.\n"
    else
      "Liver: Do not start statin. Bilirubin > 2 mg/dL. Consult hepatic experts.\n"
  else
    "Liver: Do not start statin. Transaminase > 3× ULN. Consult hepatic experts.\n"

/-- Function `get_statin_recommendation` (src/statin_logic.py): the two assessments
appended into `result`, then `result.strip()`. -/
def get_statin_recommendation (ck_value transaminase bilirubin : ℚ)
    (muscle_symptoms : Bool) : String :=
  pyStrip (ckAssessment ck_value muscle_symptoms ++
    liverAssessment transaminase bilirubin)

/-! ### Branch characterisations of the CK chain -/

theorem ckAssessment_high (ck : ℚ) (ms : Bool) (h : 2000 < ck) :
    ckAssessment ck ms =
      "CK: Withdraw statin, hydrate, and monitor renal function.\n\n" := by
  unfold ckAssessment ULN_CK
  rw [if_pos (Or.inl (show ck > 10 * (200 : ℚ) by linarith))]

theorem ckAssessment_mid (ck : ℚ) (ms : Bool) (h1 : 600 < ck) (h2 : ck ≤ 2000) :
    ckAssessment ck ms =
      "CK: Withdraw statin. Consider nonstatin-related causes and modify risk factors.\n\n" := by
  have hA : ¬(ck > 10 * (200 : ℚ) ∨ (ms = true ∧ ck > 10 * (200 : ℚ))) := by
    rintro (h' | ⟨-, h'⟩) <;> linarith
  have hB : 3 * (200 : ℚ) < ck ∧ ck ≤ 10 * (200 : ℚ) := ⟨by linarith, by linarith⟩
  unfold ckAssessment ULN_CK
  rw [if_neg hA, if_pos hB]

theorem ckAssessment_low_sym (ck : ℚ) (h : ck ≤ 600) :
    ckAssessment ck true =
      "CK: Withdraw statin. Consider nonstatin-related causes and modify risk factors.\n- If symptoms resolve and CK returns to normal: reinitiate statin at a reduced dose or switch to an alternative statin.\n- If CK remains elevated (>3x ULN) or symptoms persist: consult a specialist or consider muscle biopsy.\n\n" := by
  have hA : ¬(ck > 10 * (200 : ℚ) ∨ ((true : Bool) = true ∧ ck > 10 * (200 : ℚ))) := by
    rintro (h' | ⟨-, h'⟩) <;> linarith
  have hB : ¬(3 * (200 : ℚ) < ck ∧ ck ≤ 10 * (200 : ℚ)) := by
    rintro ⟨h', -⟩; linarith
  have hC : ck ≤ 3 * (200 : ℚ) := by linarith
  unfold ckAssessment ULN_CK
  rw [if_neg hA, if_neg hB, if_pos hC]
  simp

theorem ckAssessment_low_nosym (ck : ℚ) (h : ck ≤ 600) :
    ckAssessment ck false =
      "CK: Continue statin. Follow up CK in 2–4 weeks. Consider nonstatin-related causes and modify risk factors.\n\n" := by
  have hA : ¬(ck > 10 * (200 : ℚ) ∨ ((false : Bool) = true ∧ ck > 10 * (200 : ℚ))) := by
    rintro (h' | ⟨-, h'⟩) <;> linarith
  have hB : ¬(3 * (200 : ℚ) < ck ∧ ck ≤ 10 * (200 : ℚ)) := by
    rintro ⟨h', -⟩; linarith
  have hC : ck ≤ 3 * (200 : ℚ) := by linarith
  unfold ckAssessment ULN_CK
  rw [if_neg hA, if_neg hB, if_pos hC]
  simp

/-! ### Branch characterisations of the liver chain -/

theorem liverAssessment_low (alt b : ℚ) (h : alt ≤ 40) :
    liverAssessment alt b =
      "Liver: Start statin. Follow-up liver function test in 12 weeks.\n" := by
  unfold liverAssessment ULN_ALT
  rw [if_pos h]

theorem liverAssessment_mid_lowb (alt b : ℚ) (h1 : 40 < alt) (h2 : alt ≤ 120)
    (hb : b ≤ 2) :
    liverAssessment alt b =
      "Liver: Consider starting statin. Reassess liver function and bilirubin in 2–4 weeks.\n" := by
  have hA : ¬(alt ≤ (40 : ℚ)) := not_le.mpr h1
  have hB : (40 : ℚ) < alt ∧ alt ≤ 3 * (40 : ℚ) := ⟨h1, by linarith⟩
  unfold liverAssessment ULN_ALT BILIRUBIN_THRESHOLD
  rw [if_neg hA, if_pos hB, if_pos hb]

theorem liverAssessment_mid_highb (alt b : ℚ) (h1 : 40 < alt) (h2 : alt ≤ 120)
    (hb : 2 < b) :
    liverAssessment alt b =
      "Liver: Do not start statin. Bilirubin > 2 mg/dL. Consult hepatic experts.\n" := by
  have hA : ¬(alt ≤ (40 : ℚ)) := not_le.mpr h1
  have hB : (40 : ℚ) < alt ∧ alt ≤ 3 * (40 : ℚ) := ⟨h1, by linarith⟩
  unfold liverAssessment ULN_ALT BILIRUBIN_THRESHOLD
  rw [if_neg hA, if_pos hB, if_neg (not_le.mpr hb)]

theorem liverAssessment_high (alt b : ℚ) (h : 120 < alt) :
    liverAssessment alt b =
      "Liver: Do not start statin. Transaminase > 3× ULN. Consult hepatic experts.\n" := by
  have hA : ¬(alt ≤ (40 : ℚ)) := by linarith
  have hB : ¬((40 : ℚ) < alt ∧ alt ≤ 3 * (40 : ℚ)) := by
    rintro ⟨-, h'⟩; linarith
  unfold liverAssessment ULN_ALT
  rw [if_neg hA, if_neg hB]

/-! ### Claims C1 and C2 -/

/-- Claim C1: for every numeric `ck` and boolean `muscleSymptoms`, the CK
section is determined by the first matching branch in order: `ck > 2000`
gives the withdraw/hydrate text regardless of `muscleSymptoms` (so the
disjunct `muscleSymptoms AND ck > 10×ULN` is redundant); `600 < ck ≤ 2000`
gives the withdraw text; `ck ≤ 600` gives the multi-line
withdraw/reinitiate/specialist guidance when `muscleSymptoms` is true and
the continue/follow-up text when it is false. -/
theorem ck_section_first_match (ck : ℚ) (ms : Bool) :
    (2000 < ck →
      ckAssessment ck ms =
        "CK: Withdraw statin, hydrate, and monitor renal function.\n\n") ∧
    (600 < ck ∧ ck ≤ 2000 →
      ckAssessment ck ms =
        "CK: Withdraw statin. Consider nonstatin-related causes and modify risk factors.\n\n") ∧
    (ck ≤ 600 →
      ckAssessment ck ms =
        if ms then
          "CK: Withdraw statin. Consider nonstatin-related causes and modify risk factors.\n- If symptoms resolve and CK returns to normal: reinitiate statin at a reduced dose or switch to an alternative statin.\n- If CK remains elevated (>3x ULN) or symptoms persist: consult a specialist or consider muscle biopsy.\n\n"
        else
          "CK: Continue statin. Follow up CK in 2–4 weeks. Consider nonstatin-related causes and modify risk factors.\n\n") := by
  refine ⟨fun h => ckAssessment_high ck ms h,
    fun h => ckAssessment_mid ck ms h.1 h.2, fun h => ?_⟩
  cases ms
  · simpa using ckAssessment_low_nosym ck h
  · simpa using ckAssessment_low_sym ck h

/-- Witness for C1: the three branches evaluated at `ck = 2500`, `700`, `100`. -/
theorem ck_section_first_match_witness :
    ckAssessment 2500 true =
      "CK: Withdraw statin, hydrate, and monitor renal function.\n\n" ∧
    ckAssessment 700 false =
      "CK: Withdraw statin. Consider nonstatin-related causes and modify risk factors.\n\n" ∧
    ckAssessment 100 false =
      "CK: Continue statin. Follow up CK in 2–4 weeks. Consider nonstatin-related causes and modify risk factors.\n\n" := by
  refine ⟨(ck_section_first_match 2500 true).1 (by norm_num),
    (ck_section_first_match 700 false).2.1 ⟨by norm_num, by norm_num⟩, ?_⟩
  have h := (ck_section_first_match 100 false).2.2 (by norm_num)
  simpa using h

/-- Claim C2: for every numeric `alt` and `bilirubin`, the liver section is
the start/follow-up text when `alt ≤ 40` (boundary inclusive); when
`40 < alt ≤ 120` it is the consider/reassess text if `bilirubin ≤ 2.0` and
the bilirubin-referral text otherwise; and when `alt > 120` it is the
transaminase-referral text regardless of `bilirubin`.  The liver chain is a
function of `alt` and `bilirubin` only, hence independent of the CK inputs. -/
theorem liver_section_branches (alt b : ℚ) :
    (alt ≤ 40 →
      liverAssessment alt b =
        "Liver: Start statin. Follow-up liver function test in 12 weeks.\n") ∧
    (40 < alt ∧ alt ≤ 120 ∧ b ≤ 2 →
      liverAssessment alt b =
        "Liver: Consider starting statin. Reassess liver function and bilirubin in 2–4 weeks.\n") ∧
    (40 < alt ∧ alt ≤ 120 ∧ 2 < b →
      liverAssessment alt b =
        "Liver: Do not start statin. Bilirubin > 2 mg/dL. Consult hepatic experts.\n") ∧
    (120 < alt →
      liverAssessment alt b =
        "Liver: Do not start statin. Transaminase > 3× ULN. Consult hepatic experts.\n") :=
  ⟨fun h => liverAssessment_low alt b h,
   fun h => liverAssessment_mid_lowb alt b h.1 h.2.1 h.2.2,
   fun h => liverAssessment_mid_highb alt b h.1 h.2.1 h.2.2,
   fun h => liverAssessment_high alt b h⟩

/-- Witness for C2: the four branches at `alt = 40`, `(41, 1.0)`, `(41, 2.1)`,
`121`. -/
theorem liver_section_branches_witness :
    liverAssessment 40 1 =
      "Liver: Start statin. Follow-up liver function test in 12 weeks.\n" ∧
    liverAssessment 41 1 =
      "Liver: Consider starting statin. Reassess liver function and bilirubin in 2–4 weeks.\n" ∧
    liverAssessment 41 (21 / 10) =
      "Liver: Do not start statin. Bilirubin > 2 mg/dL. Consult hepatic experts.\n" ∧
    liverAssessment 121 1 =
      "Liver: Do not start statin. Transaminase > 3× ULN. Consult hepatic experts.\n" :=
  ⟨(liver_section_branches 40 1).1 (by norm_num),
   (liver_section_branches 41 1).2.1 ⟨by norm_num, by norm_num, by norm_num⟩,
   (liver_section_branches 41 (21 / 10)).2.2.1 ⟨by norm_num, by norm_num, by norm_num⟩,
   (liver_section_branches 121 1).2.2.2 (by norm_num)⟩

/-! ### Claim C3: shape of the full output -/

/-- Number of (possibly overlapping) occurrences of `pat` in a character
list, counted by starting position. -/
def countOccs (pat : List Char) : List Char → ℕ
  | [] => 0
  | c :: rest => (if pat.isPrefixOf (c :: rest) then 1 else 0) + countOccs pat rest

/-- Number of occurrences of the pattern string in `s`. -/
def strCount (pat s : String) : ℕ := countOccs pat.data s.data

/-- Does `s` start with the string `pre`? -/
def strStarts (pre s : String) : Bool := pre.data.isPrefixOf s.data

/-- Decidable bundle of the shape facts claimed for one engine output `r`
with CK body `A` and liver body `B`. -/
def shapeOkStr (r A B : String) : Bool :=
  (r == A ++ "\n\n" ++ B) && strStarts "CK: " A && strStarts "Liver: " B &&
    (strCount "CK: " r == 1) && (strCount "Liver: " r == 1) &&
    (strCount "\n\n" r == 1) && (pyStrip r == r)

theorem shapeOk_spec (r A B : String) (h : shapeOkStr r A B = true) :
    r = A ++ "\n\n" ++ B ∧ strStarts "CK: " A = true ∧
      strStarts "Liver: " B = true ∧ strCount "CK: " r = 1 ∧
      strCount "Liver: " r = 1 ∧ strCount "\n\n" r = 1 ∧ pyStrip r = r := by
  simp only [shapeOkStr, Bool.and_eq_true, beq_iff_eq] at h
  exact ⟨h.1.1.1.1.1.1, h.1.1.1.1.1.2, h.1.1.1.1.2, h.1.1.1.2, h.1.1.2, h.1.2, h.2⟩

/-- The four possible CK section bodies (without the blank-line separator). -/
def ckTextHigh : String :=
  "CK: Withdraw statin, hydrate, and monitor renal function."

def ckTextMid : String :=
  "CK: Withdraw statin. Consider nonstatin-related causes and modify risk factors."

def ckTextLowSym : String :=
  "CK: Withdraw statin. Consider nonstatin-related causes and modify risk factors.\n- If symptoms resolve and CK returns to normal: reinitiate statin at a reduced dose or switch to an alternative statin.\n- If CK remains elevated (>3x ULN) or symptoms persist: consult a specialist or consider muscle biopsy."

def ckTextLowNoSym : String :=
  "CK: Continue statin. Follow up CK in 2–4 weeks. Consider nonstatin-related causes and modify risk factors."

/-- The four possible liver section bodies (without the trailing newline). -/
def liverTextLow : String :=
  "Liver: Start statin. Follow-up liver function test in 12 weeks."

def liverTextMidLowB : String :=
  "Liver: Consider starting statin. Reassess liver function and bilirubin in 2–4 weeks."

def liverTextMidHighB : String :=
  "Liver: Do not start statin. Bilirubin > 2 mg/dL. Consult hepatic experts."

def liverTextHigh : String :=
  "Liver: Do not start statin. Transaminase > 3× ULN. Consult hepatic experts."

theorem recommendation_shape_aux (X A : String) (alt b : ℚ)
    (hL1 : shapeOkStr
      (pyStrip (X ++ "Liver: Start statin. Follow-up liver function test in 12 weeks.\n"))
      A liverTextLow = true)
    (hL2 : shapeOkStr
      (pyStrip (X ++ "Liver: Consider starting statin. Reassess liver function and bilirubin in 2–4 weeks.\n"))
      A liverTextMidLowB = true)
    (hL3 : shapeOkStr
      (pyStrip (X ++ "Liver: Do not start statin. Bilirubin > 2 mg/dL. Consult hepatic experts.\n"))
      A liverTextMidHighB = true)
    (hL4 : shapeOkStr
      (pyStrip (X ++ "Liver: Do not start statin. Transaminase > 3× ULN. Consult hepatic experts.\n"))
      A liverTextHigh = true) :
    ∃ A' B' : String,
      pyStrip (X ++ liverAssessment alt b) = A' ++ "\n\n" ++ B' ∧
      strStarts "CK: " A' = true ∧ strStarts "Liver: " B' = true ∧
      strCount "CK: " (pyStrip (X ++ liverAssessment alt b)) = 1 ∧
      strCount "Liver: " (pyStrip (X ++ liverAssessment alt b)) = 1 ∧
      strCount "\n\n" (pyStrip (X ++ liverAssessment alt b)) = 1 ∧
      pyStrip (pyStrip (X ++ liverAssessment alt b)) =
        pyStrip (X ++ liverAssessment alt b) := by
  rcases le_or_lt alt 40 with h | h
  · rw [liverAssessment_low alt b h]
    exact ⟨A, liverTextLow, shapeOk_spec _ _ _ hL1⟩
  · rcases le_or_lt alt 120 with h2 | h2
    · rcases le_or_lt b 2 with hb | hb
      · rw [liverAssessment_mid_lowb alt b h h2 hb]
        exact ⟨A, liverTextMidLowB, shapeOk_spec _ _ _ hL2⟩
      · rw [liverAssessment_mid_highb alt b h h2 hb]
        exact ⟨A, liverTextMidHighB, shapeOk_spec _ _ _ hL3⟩
    · rw [liverAssessment_high alt b h2]
      exact ⟨A, liverTextHigh, shapeOk_spec _ _ _ hL4⟩

/-- Claim C3: for every combination of inputs, the engine output is one CK
section (prefixed `"CK: "`) followed by one liver section (prefixed
`"Liver: "`), separated by exactly one blank line, with no other occurrence
of either section label or of a blank line, and with no leading or trailing
whitespace (stripping it again changes nothing). -/
theorem recommendation_shape (ck alt b : ℚ) (ms : Bool) :
    ∃ A B : String,
      get_statin_recommendation ck alt b ms = A ++ "\n\n" ++ B ∧
      strStarts "CK: " A = true ∧ strStarts "Liver: " B = true ∧
      strCount "CK: " (get_statin_recommendation ck alt b ms) = 1 ∧
      strCount "Liver: " (get_statin_recommendation ck alt b ms) = 1 ∧
      strCount "\n\n" (get_statin_recommendation ck alt b ms) = 1 ∧
      pyStrip (get_statin_recommendation ck alt b ms) =
        get_statin_recommendation ck alt b ms := by
  unfold get_statin_recommendation
  rcases le_or_lt ck 600 with hck | hck
  · cases ms
    · rw [ckAssessment_low_nosym ck hck]
      exact recommendation_shape_aux _ ckTextLowNoSym alt b rfl rfl rfl rfl
    · rw [ckAssessment_low_sym ck hck]
      exact recommendation_shape_aux _ ckTextLowSym alt b rfl rfl rfl rfl
  · rcases le_or_lt ck 2000 with hck2 | hck2
    · rw [ckAssessment_mid ck ms hck hck2]
      exact recommendation_shape_aux _ ckTextMid alt b rfl rfl rfl rfl
    · rw [ckAssessment_high ck ms hck2]
      exact recommendation_shape_aux _ ckTextHigh alt b rfl rfl rfl rfl

/-! ## Web service layer (src/app.py)

The `POST /evaluate` pipeline of the full application: FastAPI first
validates the JSON body against the pydantic model `EvaluationPayload`
(rejecting invalid bodies with HTTP 422 before the handler runs), then the
handler resolves the caller's identity (`require_user` /
`get_current_user`), computes the recommendation, persists an `Evaluation`
row for registered users, and maps storage failures to HTTP 500.
The database and session are modelled as explicit state. -/

/-- The session cookie contents used by the app: `is_guest` (absent ↦
`false`), `user_id` (absent ↦ `none`) and the one-shot `login_error`
flash message. -/
structure SessionData where
  is_guest : Bool
  user_id : Option ℕ
  login_error : Option String
deriving DecidableEq

/-- One `Evaluation` row (src/models.py lines 35-48) as written by the
`/evaluate` handler.  The surrogate `id` and the server-side `timestamp`
are assigned by the database and play no role in the claims, so they are
not modelled. -/
structure Evaluation where
  user_id : ℕ
  ck_value : ℚ
  transaminase : ℚ
  bilirubin : ℚ
  muscle_symptoms : Bool
  recommendation : String
deriving DecidableEq

/-- The persistent store, as far as `/evaluate` reads and writes it:
the set of existing registered-user ids and the table of evaluation rows
(in insertion order). -/
structure Store where
  users : List ℕ
  evaluations : List Evaluation
deriving DecidableEq

/-- The resolved caller identity: the transient `GuestUser` (id 0,
`is_guest = True`) or a registered `User` row found by id. -/
inductive AppUser where
  | guest
  | registered (id : ℕ)
deriving DecidableEq

/-- Function `get_current_user` (src/app.py lines 127-135): a guest flag wins; else
a session `user_id` is looked up in the store.  Python's falsy test
`if not user_id` treats both a missing id and id 0 as absent. -/
def get_current_user (sess : SessionData) (store : Store) : Option AppUser :=
  if sess.is_guest then some AppUser.guest
  else
    match sess.user_id with
    | none => none
    | some uid =>
      if uid = 0 then none
      else if uid ∈ store.users then some (AppUser.registered uid) else none

/-- The one-shot login flash message set by `require_user`. -/
def loginPromptMsg : String := "請先登入以存取系統。"

/-- Function `require_user` (src/app.py lines 138-143): on an unresolved identity it
stores the login flash message in the session and signals the redirect
exception (modelled by the `none` result). -/
def require_user (sess : SessionData) (store : Store) :
    Option AppUser × SessionData :=
  match get_current_user sess store with
  | some u => (some u, sess)
  | none => (none, { sess with login_error := some loginPromptMsg })

/-- Function `extract_login_error` (src/app.py lines 191-192): `session.pop`, i.e.
read the flash message and clear it. -/
def extract_login_error (sess : SessionData) : Option String × SessionData :=
  (sess.login_error, { sess with login_error := none })

/-- Route `GET /login` (src/app.py lines 213-218), restricted to its session
effect: the rendered error is the popped flash message. -/
def login_page (sess : SessionData) : Option String × SessionData :=
  extract_login_error sess

/-- A JSON value of one body field. -/
inductive Json where
  | jnum (value : ℚ)
  | jstr (value : String)
  | jbool (value : Bool)
  | jnull
deriving DecidableEq

/-- Greedily take decimal digits from the front of a character list. -/
def takeDigits : List Char → List ℕ × List Char
  | [] => ([], [])
  | c :: rest =>
    if c.isDigit then
      let (ds, rem) := takeDigits rest
      ((c.toNat - 48) :: ds, rem)
    else ([], c :: rest)

def digitsToNat (ds : List ℕ) : ℕ := ds.foldl (fun a d => 10 * a + d) 0

/-- Parse an unsigned decimal literal (`"12"`, `"12.5"`, `".5"`, `"12."`). -/
def parseUnsignedDecimal (cs : List Char) : Option ℚ :=
  let (ip, rest) := takeDigits cs
  match rest with
  | [] => if ip = [] then none else some (digitsToNat ip)
  | '.' :: rest2 =>
    let (fp, rest3) := takeDigits rest2
    if rest3 = [] ∧ (ip ≠ [] ∨ fp ≠ []) then
      some ((digitsToNat ip : ℚ) + (digitsToNat fp : ℚ) / (10 : ℚ) ^ fp.length)
    else none
  | _ => none

/-- Modelled pydantic lax string-to-float coercion, for plain signed
decimal literals (the exponent/inf/nan forms are never exercised by the
claims; a non-numeric string such as `"abc"` fails). -/
def parseDecimalString (s : String) : Option ℚ :=
  match s.data with
  | '-' :: rest => (parseUnsignedDecimal rest).map (fun q => -q)
  | '+' :: rest => parseUnsignedDecimal rest
  | cs => parseUnsignedDecimal cs

/-- Pydantic (lax) validation of one `float` field of `EvaluationPayload`:
numbers pass through, numeric strings are coerced, everything else is a
validation error. -/
def pydanticFloat : Json → Option ℚ
  | Json.jnum q => some q
  | Json.jstr s => parseDecimalString s
  | Json.jbool _ => none
  | Json.jnull => none

/-- Pydantic (lax) validation of the `bool` field: booleans pass through,
`0`/`1` and the usual string spellings are coerced (the string set below is
the subset sufficient for the claims). -/
def pydanticBool : Json → Option Bool
  | Json.jbool bv => some bv
  | Json.jnum q => if q = 0 then some false else if q = 1 then some true else none
  | Json.jstr s =>
    if s ∈ (["true", "True", "1", "yes", "on"] : List String) then some true
    else if s ∈ (["false", "False", "0", "no", "off"] : List String) then some false
    else none
  | Json.jnull => none

/-- A raw `POST /evaluate` JSON body: each of the four fields is present
with some JSON value, or missing. -/
structure RawBody where
  ck_value : Option Json
  transaminase : Option Json
  bilirubin : Option Json
  muscle_symptoms : Option Json

/-- The pydantic model `EvaluationPayload` (src/app.py lines 104-108). -/
structure EvaluationPayload where
  ck_value : ℚ
  transaminase : ℚ
  bilirubin : ℚ
  muscle_symptoms : Bool
deriving DecidableEq

/-- FastAPI body validation against `EvaluationPayload`: all four required
fields must be present and coercible. -/
def validatePayload (raw : RawBody) : Option EvaluationPayload := do
  let ckj ← raw.ck_value
  let ck ← pydanticFloat ckj
  let tj ← raw.transaminase
  let t ← pydanticFloat tj
  let bj ← raw.bilirubin
  let bv ← pydanticFloat bj
  let mj ← raw.muscle_symptoms
  let m ← pydanticBool mj
  pure ⟨ck, t, bv, m⟩

/-- The response bodies `/evaluate` can produce: the handler's JSON
success/error objects, or the framework's validation-error detail document
(whose exact contents are opaque here). -/
inductive RespBody where
  | jsonOk (success : Bool) (recommendation : String)
  | jsonErr (success : Bool) (error : String)
  | validationDetail
deriving DecidableEq

structure Response where
  status : ℕ
  body : RespBody
deriving DecidableEq

/-- The `POST /evaluate` pipeline (src/app.py lines 336-389 plus FastAPI's
body validation).  `dbFails` models `db.add`/`db.commit` raising
`SQLAlchemyError`; the handler's rollback leaves the store unchanged.
An invalid body never reaches the handler: FastAPI answers HTTP 422 with
its validation detail, so the handler's `except (ValueError, TypeError)`
branch (HTTP 400) is unreachable for body-validation failures. -/
def evaluate (raw : RawBody) (sess : SessionData) (store : Store)
    (dbFails : Bool) : Response × SessionData × Store :=
  match validatePayload raw with
  | none => (⟨422, RespBody.validationDetail⟩, sess, store)
  | some payload =>
    match require_user sess store with
    | (none, sess2) =>
      (⟨401, RespBody.jsonErr false "Authentication required."⟩, sess2, store)
    | (some user, sess2) =>
      let recText := get_statin_recommendation payload.ck_value
        payload.transaminase payload.bilirubin payload.muscle_symptoms
      match user with
      | AppUser.guest => (⟨200, RespBody.jsonOk true recText⟩, sess2, store)
      | AppUser.registered uid =>
        if dbFails then
          (⟨500, RespBody.jsonErr false "A database error occurred."⟩, sess2, store)
        else
          (⟨200, RespBody.jsonOk true recText⟩, sess2,
            { store with
              evaluations := store.evaluations ++
                [⟨uid, payload.ck_value, payload.transaminase,
                  payload.bilirubin, payload.muscle_symptoms, recText⟩] })

/-! ### Concrete request fixtures -/

/-- A well-formed body: `ck_value = 30`, `transaminase = 30`,
`bilirubin = 1`, `muscle_symptoms = false`. -/
def rawBodyValid : RawBody :=
  ⟨some (Json.jnum 30), some (Json.jnum 30), some (Json.jnum 1),
    some (Json.jbool false)⟩

/-- The spec's invalid body: `ck_value` is the non-numeric string
`"abc"`, the other three fields are valid. -/
def rawBodyAbc : RawBody :=
  ⟨some (Json.jstr "abc"), some (Json.jnum 30), some (Json.jnum 1),
    some (Json.jbool false)⟩

/-! ### Claim C4 -/

/-- Claim C4 (refuted; evidence of a code bug): a `POST /evaluate` body
with the non-numeric `ck_value` `"abc"` fails pydantic validation, so
FastAPI answers HTTP 422 with its validation-detail body before the handler
runs — not the claimed HTTP 400 with
`{success:false, error:"Invalid input format. Please ensure all values are
numbers."}`.  The handler's `except (ValueError, TypeError)` branch carrying
exactly that 400 response is dead code for body-validation failures. -/
theorem invalid_body_yields_422 :
    validatePayload rawBodyAbc = none ∧
    evaluate rawBodyAbc ⟨false, none, none⟩ ⟨[1], []⟩ false =
      (⟨422, RespBody.validationDetail⟩, ⟨false, none, none⟩, ⟨[1], []⟩) ∧
    (evaluate rawBodyAbc ⟨false, none, none⟩ ⟨[1], []⟩ false).1.status ≠ 400 ∧
    (evaluate rawBodyAbc ⟨false, none, none⟩ ⟨[1], []⟩ false).1.body ≠
      RespBody.jsonErr false
        "Invalid input format. Please ensure all values are numbers." := by
  refine ⟨rfl, rfl, by decide, by decide⟩

/-! ### Claim C5 -/

/-- Claim C5: a `POST /evaluate` request with a well-formed body whose
session resolves to no identity (no guest flag and no user id that exists
in the store) is answered with HTTP 401 and body
`{success:false, error:"Authentication required."}`, not with the 303
redirect used by page routes. -/
theorem unauthenticated_evaluate_401 (raw : RawBody) (sess : SessionData)
    (store : Store) (dbFails : Bool) (p : EvaluationPayload)
    (hv : validatePayload raw = some p)
    (hid : get_current_user sess store = none) :
    (evaluate raw sess store dbFails).1 =
      ⟨401, RespBody.jsonErr false "Authentication required."⟩ ∧
    (evaluate raw sess store dbFails).1.status ≠ 303 := by
  simp only [evaluate, require_user, hv, hid]
  simp

/-- Witness for C5: a fresh session against an empty store. -/
theorem unauthenticated_evaluate_401_witness :
    (evaluate rawBodyValid ⟨false, none, none⟩ ⟨[], []⟩ false).1 =
      ⟨401, RespBody.jsonErr false "Authentication required."⟩ ∧
    (evaluate rawBodyValid ⟨false, none, none⟩ ⟨[], []⟩ false).1.status ≠ 303 :=
  unauthenticated_evaluate_401 rawBodyValid ⟨false, none, none⟩ ⟨[], []⟩ false
    ⟨30, 30, 1, false⟩ rfl rfl

/-! ### Claim C6 -/

/-- Claim C6: on a successful `POST /evaluate` (valid body, no storage
failure): a guest caller gets `{success:true, recommendation}` and the
store is unchanged (nothing persisted); a registered caller gets the same
response shape and exactly one `Evaluation` row is appended, linked to the
caller's id and carrying the four submitted values verbatim together with
the exact engine output. -/
theorem evaluate_persistence (raw : RawBody) (sess : SessionData)
    (store : Store) (p : EvaluationPayload)
    (hv : validatePayload raw = some p) :
    (sess.is_guest = true →
      evaluate raw sess store false =
        (⟨200, RespBody.jsonOk true (get_statin_recommendation p.ck_value
            p.transaminase p.bilirubin p.muscle_symptoms)⟩, sess, store)) ∧
    (∀ uid : ℕ, get_current_user sess store = some (AppUser.registered uid) →
      evaluate raw sess store false =
        (⟨200, RespBody.jsonOk true (get_statin_recommendation p.ck_value
            p.transaminase p.bilirubin p.muscle_symptoms)⟩, sess,
          { store with
            evaluations := store.evaluations ++
              [⟨uid, p.ck_value, p.transaminase, p.bilirubin,
                p.muscle_symptoms,
                get_statin_recommendation p.ck_value p.transaminase
                  p.bilirubin p.muscle_symptoms⟩] })) := by
  constructor
  · intro hg
    have hid : get_current_user sess store = some AppUser.guest := by
      unfold get_current_user
      rw [if_pos hg]
    simp only [evaluate, require_user, hv, hid]
  · intro uid hid
    simp only [evaluate, require_user, hv, hid]
    simp

/-- Witness for C6: a guest session (store untouched) and registered user 7
(row appended verbatim). -/
theorem evaluate_persistence_witness :
    evaluate rawBodyValid ⟨true, none, none⟩ ⟨[], []⟩ false =
      (⟨200, RespBody.jsonOk true (get_statin_recommendation 30 30 1 false)⟩,
        ⟨true, none, none⟩, ⟨[], []⟩) ∧
    evaluate rawBodyValid ⟨false, some 7, none⟩ ⟨[7], []⟩ false =
      (⟨200, RespBody.jsonOk true (get_statin_recommendation 30 30 1 false)⟩,
        ⟨false, some 7, none⟩,
        ⟨[7], [⟨7, 30, 30, 1, false,
          get_statin_recommendation 30 30 1 false⟩]⟩) := by
  constructor
  · exact (evaluate_persistence rawBodyValid ⟨true, none, none⟩ ⟨[], []⟩
      ⟨30, 30, 1, false⟩ rfl).1 rfl
  · exact (evaluate_persistence rawBodyValid ⟨false, some 7, none⟩ ⟨[7], []⟩
      ⟨30, 30, 1, false⟩ rfl).2 7 rfl

/-! ### Claim C9 -/

/-- Claim C9: if the storage layer fails during a registered user's save,
the transaction is rolled back (the store is exactly as before — no row
from this request remains) and the response is HTTP 500 with body
`{success:false, error:"A database error occurred."}`, with no internal
detail. -/
theorem storage_failure_rollback (raw : RawBody) (sess : SessionData)
    (store : Store) (p : EvaluationPayload) (uid : ℕ)
    (hv : validatePayload raw = some p)
    (hid : get_current_user sess store = some (AppUser.registered uid)) :
    evaluate raw sess store true =
      (⟨500, RespBody.jsonErr false "A database error occurred."⟩,
        sess, store) := by
  simp only [evaluate, require_user, hv, hid]
  simp

/-- Witness for C9: registered user 7, storage failure on commit. -/
theorem storage_failure_rollback_witness :
    evaluate rawBodyValid ⟨false, some 7, none⟩ ⟨[7], []⟩ true =
      (⟨500, RespBody.jsonErr false "A database error occurred."⟩,
        ⟨false, some 7, none⟩, ⟨[7], []⟩) :=
  storage_failure_rollback rawBodyValid ⟨false, some 7, none⟩ ⟨[7], []⟩
    ⟨30, 30, 1, false⟩ 7 rfl rfl

/-! ### Claim C10 -/

/-- Claim C10 (implicit frame effect): an unauthenticated `POST /evaluate`
writes the one-shot login flash message `"請先登入以存取系統。"` into the
session (done by `require_user` before the 401 JSON is returned, without a
redirect), and a subsequent `GET /login` on that session displays the
message and clears it. -/
theorem login_flash_after_401 (raw : RawBody) (sess : SessionData)
    (store : Store) (dbFails : Bool) (p : EvaluationPayload)
    (hv : validatePayload raw = some p)
    (hid : get_current_user sess store = none) :
    (evaluate raw sess store dbFails).2.1.login_error = some loginPromptMsg ∧
    (evaluate raw sess store dbFails).1.status = 401 ∧
    (login_page (evaluate raw sess store dbFails).2.1).1 =
      some loginPromptMsg ∧
    (login_page (evaluate raw sess store dbFails).2.1).2.login_error =
      none := by
  simp only [evaluate, require_user, hv, hid, login_page, extract_login_error]
  simp

/-- Witness for C10: a fresh session against an empty store. -/
theorem login_flash_after_401_witness :
    (evaluate rawBodyValid ⟨false, none, none⟩ ⟨[], []⟩ false).2.1.login_error =
      some loginPromptMsg ∧
    (evaluate rawBodyValid ⟨false, none, none⟩ ⟨[], []⟩ false).1.status = 401 ∧
    (login_page
      (evaluate rawBodyValid ⟨false, none, none⟩ ⟨[], []⟩ false).2.1).1 =
      some loginPromptMsg ∧
    (login_page
      (evaluate rawBodyValid ⟨false, none, none⟩ ⟨[], []⟩ false).2.1).2.login_error =
      none :=
  login_flash_after_401 rawBodyValid ⟨false, none, none⟩ ⟨[], []⟩ false
    ⟨30, 30, 1, false⟩ rfl rfl

/-! ## Pagination helper (src/app.py lines 146-188)

The `items` field carries the already-sliced page of rows and plays no role
in any computed property, so only the three numeric constructor arguments
are modelled. -/

structure Pagination where
  page : ℕ
  per_page : ℕ
  total : ℕ
deriving DecidableEq

/-- Property `Pagination.pages`: `math.ceil(total / per_page)` with a minimum of 1,
and 0 when `per_page` is 0. -/
def Pagination.pages (p : Pagination) : ℕ :=
  if p.per_page = 0 then 0
  else max 1 (Nat.ceil ((p.total : ℚ) / (p.per_page : ℚ)))

/-- Property `Pagination.has_prev`: `page > 1`. -/
def Pagination.has_prev (p : Pagination) : Bool := decide (1 < p.page)

/-- Property `Pagination.has_next`: `page < pages`. -/
def Pagination.has_next (p : Pagination) : Bool := decide (p.page < p.pages)

/-- Property `Pagination.prev_num`: `max(1, page - 1)` (Python's `page - 1` can be
negative only for `page = 0`, where both readings give 1). -/
def Pagination.prev_num (p : Pagination) : ℕ := max 1 (p.page - 1)

/-- Property `Pagination.next_num`: `min(pages, page + 1)`. -/
def Pagination.next_num (p : Pagination) : ℕ := min p.pages (p.page + 1)

/-- The ceiling of a quotient of naturals as integer division. -/
theorem nat_ceil_div (a c : ℕ) (hc : 0 < c) :
    Nat.ceil ((a : ℚ) / (c : ℚ)) = (a + c - 1) / c := by
  have hc' : (0 : ℚ) < (c : ℚ) := by exact_mod_cast hc
  apply le_antisymm
  · rw [Nat.ceil_le, div_le_iff₀ hc']
    have h1 : a ≤ (a + c - 1) / c * c := by
      have h2 := Nat.lt_div_mul_add (a := a + c - 1) hc
      generalize (a + c - 1) / c * c = m at h2 ⊢
      omega
    exact_mod_cast h1
  · have h1 : (a : ℚ) / c ≤ (Nat.ceil ((a : ℚ) / (c : ℚ)) : ℚ) := Nat.le_ceil _
    rw [div_le_iff₀ hc'] at h1
    have h2 : a ≤ Nat.ceil ((a : ℚ) / (c : ℚ)) * c := by exact_mod_cast h1
    rw [Nat.div_le_iff_le_mul_add_pred hc]
    generalize Nat.ceil ((a : ℚ) / (c : ℚ)) = n at h2 ⊢
    have h3 : n * c = c * n := Nat.mul_comm n c
    generalize n * c = m at h2 h3
    omega

/-- Executable form of `Pagination.pages`. -/
theorem Pagination.pages_eq (p : Pagination) :
    p.pages = if p.per_page = 0 then 0
      else max 1 ((p.total + p.per_page - 1) / p.per_page) := by
  unfold Pagination.pages
  by_cases h : p.per_page = 0
  · rw [if_pos h, if_pos h]
  · rw [if_neg h, if_neg h, nat_ceil_div _ _ (Nat.pos_of_ne_zero h)]

/-! ### Claim C7 -/

/-- Claim C7 counterexample: for `page = 5`, `per_page = 10`, `total = 25`
(a page number greater than the page count, which the claim's
quantification over all `page ≥ 1` admits), `prev_num` is
`max(1, 5 - 1) = 4` while `pages = 3`, so `prev_num` is *not* clamped into
`[1, pages]` as the claim states. -/
theorem pagination_clamp_cex :
    (Pagination.mk 5 10 25).prev_num = 4 ∧
    (Pagination.mk 5 10 25).pages = 3 ∧
    ¬((Pagination.mk 5 10 25).prev_num ≤ (Pagination.mk 5 10 25).pages) := by
  have hp : (Pagination.mk 5 10 25).pages = 3 := by
    rw [Pagination.pages_eq]; decide
  refine ⟨by decide, hp, ?_⟩
  rw [hp]; decide

/-- Claim C7 (amended): the pagination helper computes
`pages = ceil(total/per_page)` with a minimum of 1 (0 when `per_page = 0`,
and equal to the integer formula `(total + per_page - 1) / per_page`);
`has_prev` holds iff `page > 1`; `has_next` holds iff `page < pages`;
`prev_num = max(1, page - 1)` (clamped below only — it can exceed `pages`
when `page > pages`) and `next_num = min(pages, page + 1)` (clamped above
only); whenever `1 ≤ page ≤ pages` both numbers do lie in `[1, pages]`.
For `total = 25`, `per_page = 10`: `pages = 3`, `has_next` holds on pages
1-2 and not on page 3, `has_prev` fails on page 1 and holds on pages 2-3. -/
theorem pagination_spec (page pp total : ℕ) :
    (pp = 0 → (Pagination.mk page pp total).pages = 0) ∧
    (0 < pp → (Pagination.mk page pp total).pages =
      max 1 ((total + pp - 1) / pp)) ∧
    ((Pagination.mk page pp total).has_prev = true ↔ 1 < page) ∧
    ((Pagination.mk page pp total).has_next = true ↔
      page < (Pagination.mk page pp total).pages) ∧
    (Pagination.mk page pp total).prev_num = max 1 (page - 1) ∧
    (Pagination.mk page pp total).next_num =
      min (Pagination.mk page pp total).pages (page + 1) ∧
    (1 ≤ page → page ≤ (Pagination.mk page pp total).pages →
      1 ≤ (Pagination.mk page pp total).prev_num ∧
      (Pagination.mk page pp total).prev_num ≤
        (Pagination.mk page pp total).pages ∧
      1 ≤ (Pagination.mk page pp total).next_num ∧
      (Pagination.mk page pp total).next_num ≤
        (Pagination.mk page pp total).pages) ∧
    (Pagination.mk 1 10 25).pages = 3 ∧
    (Pagination.mk 1 10 25).has_next = true ∧
    (Pagination.mk 2 10 25).has_next = true ∧
    (Pagination.mk 3 10 25).has_next = false ∧
    (Pagination.mk 1 10 25).has_prev = false ∧
    (Pagination.mk 2 10 25).has_prev = true ∧
    (Pagination.mk 3 10 25).has_prev = true := by
  have hp1 : (Pagination.mk 1 10 25).pages = 3 := by
    rw [Pagination.pages_eq]; decide
  have hp2 : (Pagination.mk 2 10 25).pages = 3 := by
    rw [Pagination.pages_eq]; decide
  have hp3 : (Pagination.mk 3 10 25).pages = 3 := by
    rw [Pagination.pages_eq]; decide
  refine ⟨?_, ?_, ?_, ?_, rfl, rfl, ?_, hp1, ?_, ?_, ?_, ?_, ?_, ?_⟩
  · intro h
    unfold Pagination.pages
    rw [if_pos h]
  · intro h
    rw [Pagination.pages_eq, if_neg (Nat.pos_iff_ne_zero.mp h)]
  · simp [Pagination.has_prev]
  · simp [Pagination.has_next]
  · intro h1 h2
    unfold Pagination.prev_num Pagination.next_num
    dsimp only
    omega
  · unfold Pagination.has_next
    rw [hp1]; decide
  · unfold Pagination.has_next
    rw [hp2]; decide
  · unfold Pagination.has_next
    rw [hp3]; decide
  · rfl
  · rfl
  · rfl

/-- Witness for C7: at `page = 2`, `per_page = 10`, `total = 25` both
`prev_num` and `next_num` lie in `[1, pages]`. -/
theorem pagination_spec_witness :
    1 ≤ (Pagination.mk 2 10 25).prev_num ∧
    (Pagination.mk 2 10 25).prev_num ≤ (Pagination.mk 2 10 25).pages ∧
    1 ≤ (Pagination.mk 2 10 25).next_num ∧
    (Pagination.mk 2 10 25).next_num ≤ (Pagination.mk 2 10 25).pages := by
  have hpg : (2 : ℕ) ≤ (Pagination.mk 2 10 25).pages := by
    rw [Pagination.pages_eq]; decide
  exact (pagination_spec 2 10 25).2.2.2.2.2.2.1 (by decide) hpg

/-! ### Claim C8: `Pagination.iter_pages` -/

/-- The show-this-page condition of `iter_pages` (src/app.py lines
180-184), with Python's possibly-negative intermediate values computed in
`ℤ`:  `num <= left_edge or (page - left_current - 1 < num < page +
right_current) or num > pages - right_edge`. -/
def iterCond (page pages le lc rc re num : ℕ) : Prop :=
  num ≤ le ∨ ((page : ℤ) - lc - 1 < (num : ℤ) ∧ (num : ℤ) < (page : ℤ) + rc) ∨
    ((pages : ℤ) - re < (num : ℤ))

instance (page pages le lc rc re num : ℕ) :
    Decidable (iterCond page pages le lc rc re num) := by
  unfold iterCond; infer_instance

/-- The loop of `iter_pages` (src/app.py lines 178-188): walk the page
numbers, keeping `last`; before yielding a number that does not follow the
previous yielded one directly, yield the gap sentinel `None`. -/
def iterPagesGo (page pages le lc rc re : ℕ) : List ℕ → ℕ → List (Option ℕ)
  | [], _ => []
  | num :: rest, last =>
    if iterCond page pages le lc rc re num then
      (if last + 1 = num then [some num] else [none, some num]) ++
        iterPagesGo page pages le lc rc re rest num
    else iterPagesGo page pages le lc rc re rest last

/-- Method `Pagination.iter_pages` as a list: `for num in range(1, pages + 1)`
with initial `last = 0`. -/
def Pagination.iter_pages (p : Pagination) (le lc rc re : ℕ) :
    List (Option ℕ) :=
  iterPagesGo p.page p.pages le lc rc re (List.range' 1 p.pages) 0

/-- Modelled from the spec's gap policy: given the increasing list of page
numbers to show, insert a single `none` sentinel wherever consecutive shown
numbers jump by more than one (`last` starts at 0, so no leading sentinel
appears when the list starts at 1). -/
def gapSequence : List ℕ → ℕ → List (Option ℕ)
  | [], _ => []
  | num :: rest, last =>
    (if last + 1 = num then [some num] else [none, some num]) ++
      gapSequence rest num

/-- The page numbers shown by `iter_pages` with the default window
parameters. -/
def shownPages (page pages : ℕ) : List ℕ :=
  (List.range' 1 pages).filter
    (fun num => decide (iterCond page pages 2 2 2 2 num))

theorem iterPagesGo_eq_gap (page pages le lc rc re : ℕ) (l : List ℕ) :
    ∀ last : ℕ,
      iterPagesGo page pages le lc rc re l last =
        gapSequence (l.filter fun num =>
          decide (iterCond page pages le lc rc re num)) last := by
  induction l with
  | nil => intro last; rfl
  | cons num rest ih =>
    intro last
    by_cases h : iterCond page pages le lc rc re num
    · simp only [iterPagesGo, List.filter_cons, decide_eq_true h, if_pos h,
        if_true, gapSequence, ih]
    · simp only [iterPagesGo, List.filter_cons, decide_eq_false h, if_neg h,
        Bool.false_eq_true, if_false, ih]

theorem mem_range'_one (n x : ℕ) : x ∈ List.range' 1 n ↔ 1 ≤ x ∧ x ≤ n := by
  rw [List.mem_range'_1]
  omega

theorem pairwise_range' (s n : ℕ) :
    List.Pairwise (· < ·) (List.range' s n) := by
  induction n generalizing s with
  | zero => exact List.Pairwise.nil
  | succ m ih =>
    rw [List.range'_succ]
    refine List.Pairwise.cons (fun x hx => ?_) (ih (s + 1))
    have := (List.mem_range'_1).mp hx
    omega

/-- Claim C8 counterexample: with 20 pages and current page 10, page 12
(within 2 of the current page, so required by the claim's "within 2 of the
current page on each side") is absent from the yielded sequence — the
code's window is `page - 2 ≤ num ≤ page + 1`, asymmetric to the right. -/
theorem iter_pages_window_cex :
    (Pagination.mk 10 1 20).iter_pages 2 2 2 2 =
      [some 1, some 2, none, some 8, some 9, some 10, some 11, none,
        some 19, some 20] ∧
    ¬ some 12 ∈ (Pagination.mk 10 1 20).iter_pages 2 2 2 2 := by
  have hp : (Pagination.mk 10 1 20).pages = 20 := by
    rw [Pagination.pages_eq]; decide
  have he : (Pagination.mk 10 1 20).iter_pages 2 2 2 2 =
      iterPagesGo 10 20 2 2 2 2 (List.range' 1 20) 0 := by
    unfold Pagination.iter_pages
    rw [hp]
  rw [he]
  constructor
  · decide
  · decide

/-- Claim C8 (amended): with the default parameters
`left_edge = left_current = right_current = right_edge = 2`, the sequence
yielded by `iter_pages` is exactly the increasing list of page numbers
`num` with `1 ≤ num ≤ pages` satisfying `num ≤ 2`, or
`page - 2 ≤ num ≤ page + 1` (within 2 of the current page on the left but
only 1 on the right), or `num > pages - 2`, with a single `none` gap
sentinel inserted wherever consecutive yielded page numbers jump by more
than 1. -/
theorem iter_pages_gap_structure (p : Pagination) :
    p.iter_pages 2 2 2 2 = gapSequence (shownPages p.page p.pages) 0 ∧
    (∀ n : ℕ, n ∈ shownPages p.page p.pages ↔
      1 ≤ n ∧ n ≤ p.pages ∧
        (n ≤ 2 ∨ ((p.page : ℤ) - 2 ≤ (n : ℤ) ∧ (n : ℤ) ≤ (p.page : ℤ) + 1) ∨
          ((p.pages : ℤ) - 2 < (n : ℤ)))) ∧
    List.Pairwise (· < ·) (shownPages p.page p.pages) := by
  refine ⟨?_, ?_, ?_⟩
  · unfold Pagination.iter_pages shownPages
    exact iterPagesGo_eq_gap p.page p.pages 2 2 2 2 (List.range' 1 p.pages) 0
  · intro n
    unfold shownPages
    simp only [List.mem_filter, mem_range'_one, decide_eq_true_eq, iterCond]
    constructor
    · rintro ⟨⟨h1, h2⟩, h3⟩
      exact ⟨h1, h2, by omega⟩
    · rintro ⟨h1, h2, h3⟩
      exact ⟨⟨h1, h2⟩, by omega⟩
  · unfold shownPages
    exact (pairwise_range' 1 p.pages).filter _
